import Mathlib

/-!
Verification of the JSON-RPC-over-WebSocket gateway core of gns3-server
(`gns3server/handlers/jsonrpc_websocket.py`, class `JSONRPCWebSocket`).

The handler's state and operations are shallowly embedded:

* Decoded JSON values (the result of tornado's `json_decode`) become the
  inductive `JVal`.  A frame whose text fails to decode is represented by
  `none : Option JVal`.
* The method registry `JSONRPCWebSocket.destinations` (a Python dict
  mapping method string to module string / handler) becomes an association
  list `List (String × String)`; Python dict keys are unique, and lookup
  takes the first binding.
* The session directory `JSONRPCWebSocket.clients` (a Python set of handler
  objects, each carrying a unique uuid4 `session_id`) becomes the list of
  the session-id strings of its members.
* Each operation returns its observable effects (WebSocket writes, bus
  sends, builtin handler invocations, critical log records) instead of
  performing them.  An uncaught Python exception is `none` in an
  `Option`-valued result.

The error-envelope classes (`JSONRPCParseError`, `JSONRPCInvalidRequest`,
`JSONRPCMethodNotFound`, `JSONRPCNotification`) live in
`gns3server/jsonrpc.py`, which is not part of the sources under study;
their definitions below are modelled from the specification's Error
Encoder table (codes -32700 / -32600 / -32601, `id` echoed where
available, notification envelopes carrying `jsonrpc` and `method`).
-/

/-- Decoded JSON value, as produced by `tornado.escape.json_decode`.
Python ints and floats are both modelled as `Rat` (Python compares them
by numeric value across the two types). -/
inductive JVal where
  | null : JVal
  | bool : Bool → JVal
  | num : Rat → JVal
  | str : String → JVal
  | arr : List JVal → JVal
  | obj : List (String × JVal) → JVal

namespace JVal

/-- Dict field access `request[k]` / `request.get(k)` on a decoded value:
`some v` when the value is an object carrying the key, `none` when the key
is missing or the value is not a dict (where `request[k]` raises
`TypeError`/`KeyError`, caught by the bare `except` in `on_message`). -/
def getField : JVal → String → Option JVal
  | .obj fields, k => fields.lookup k
  | _, _ => none

/-- Python truthiness (`if request_id:`) of a decoded JSON value. -/
def truthy : JVal → Bool
  | .null => false
  | .bool b => b
  | .num q => !(decide (q = 0))
  | .str s => s != ""
  | .arr xs => !xs.isEmpty
  | .obj fs => !fs.isEmpty

/-- Python subscription `v[i]` for a non-negative index on a decoded JSON
value: `some` for a list that is long enough and for a string (where it
yields a one-character string); `none` when Python raises
(`IndexError` on a short list, `KeyError` on a dict — JSON object keys are
strings, never ints — `TypeError` otherwise). -/
def pyIndex : JVal → Nat → Option JVal
  | .arr xs, i => xs.get? i
  | .str s, i =>
      if h : i < s.data.length then some (.str (String.mk [s.data.get ⟨i, h⟩]))
      else none
  | _, _ => none

end JVal

/-- Python `s.startswith(pre)`: the characters of `pre` are a prefix of
the characters of `s`. -/
def pyStartsWith (s pre : String) : Bool :=
  pre.data.isPrefixOf s.data

/-- Python `s.endswith(suf)`: the characters of `suf` are a suffix of the
characters of `s`. -/
def pyEndsWith (s suf : String) : Bool :=
  suf.data.isSuffixOf s.data

/-- Class attribute `JSONRPCWebSocket.version = 2.0`: a Python float. -/
def version : Rat := 2

/-- The check `jsonrpc_version != self.version` on line 133, negated: in
Python a decoded value equals the float `2.0` exactly when it is an int,
float or bool of numeric value 2 (and `bool` is `0` or `1`, never 2), so
only `JVal.num 2` passes.  In particular the string `"2.0"` does NOT. -/
def versionMatches : JVal → Bool
  | .num q => decide (q = version)
  | _ => false

/-- Truthiness of `request.get("id")`: Python `None` (key absent) is
falsy, otherwise the value's own truthiness decides. -/
def idTruthy : Option JVal → Bool
  | none => false
  | some v => v.truthy

/-- Modelled from the spec: `JSONRPCParseError` of `gns3server/jsonrpc.py`
(not among the sources).  ParseError envelope, code -32700, `id` null. -/
def JSONRPCParseError : JVal :=
  .obj [("jsonrpc", .str "2.0"),
        ("error", .obj [("code", .num (-32700)), ("message", .str "Parse error")]),
        ("id", .null)]

/-- Modelled from the spec: `JSONRPCInvalidRequest` of
`gns3server/jsonrpc.py` (not among the sources).  InvalidRequest
envelope, code -32600, `id` null. -/
def JSONRPCInvalidRequest : JVal :=
  .obj [("jsonrpc", .str "2.0"),
        ("error", .obj [("code", .num (-32600)), ("message", .str "Invalid request")]),
        ("id", .null)]

/-- Modelled from the spec: `JSONRPCMethodNotFound` of
`gns3server/jsonrpc.py` (not among the sources).  MethodNotFound
envelope, code -32601, echoing the request id. -/
def JSONRPCMethodNotFound (requestId : JVal) : JVal :=
  .obj [("jsonrpc", .str "2.0"),
        ("error", .obj [("code", .num (-32601)), ("message", .str "Method not found")]),
        ("id", requestId)]

/-- Modelled from the spec: `JSONRPCNotification` of
`gns3server/jsonrpc.py` (not among the sources).  Notification envelope
carrying `jsonrpc` and `method` and omitting `id`. -/
def JSONRPCNotification (method : String) : JVal :=
  .obj [("jsonrpc", .str "2.0"), ("method", .str method)]

/-- Observable effects of one `on_message` invocation. -/
structure GatewayEffects where
  /-- Arguments of `self.write_message(...)` calls, in order. -/
  replies : List JVal
  /-- Two-frame bus sends `send_string(module, SNDMORE); send_json(payload)`
  made through `self.zmq_router`, as (module, payload) pairs. -/
  busMessages : List (String × JVal)
  /-- Registry values invoked as in-process builtin handlers by
  `self.destinations[method]()`. -/
  builtinCalls : List String

/-- Dict membership and lookup as `on_message` performs them on lines
136/145/148: `method` is whatever `request["method"]` decoded to.  Every
registered key is a string, so a string method looks up normally
(`some (destinations.lookup s)`), a hashable non-string method (null,
bool, number) is simply absent (`some none`), and an unhashable method —
a decoded JSON array or object — makes `method not in self.destinations`
raise `TypeError` (`none`), which line 136 sits outside the `try`/`except`
so nothing catches it. -/
def lookupDest (destinations : List (String × String)) :
    JVal → Option (Option String)
  | .str s => some (destinations.lookup s)
  | .null => some none
  | .bool _ => some none
  | .num _ => some none
  | .arr _ => none
  | .obj _ => none

/-- `JSONRPCWebSocket.on_message` (lines 115-155).  `decoded` is the
result of `json_decode(message)`: `none` when decoding raised.  The bare
`except` also catches the `KeyError`/`TypeError` of `request["jsonrpc"]`
and `request["method"]`, hence the ParseError reply whenever either field
is unavailable; `request.get("id")` cannot raise on a dict.  The
membership test `method not in self.destinations` on line 136 is OUTSIDE
the `try`/`except`: for an unhashable method value (a decoded JSON array
or object) it raises an uncaught `TypeError`, so the whole invocation
results in `none` — nothing is written and nothing is sent. -/
def on_message (destinations : List (String × String)) (session_id : String)
    (decoded : Option JVal) : Option GatewayEffects :=
  match decoded with
  | none => some ⟨[JSONRPCParseError], [], []⟩
  | some request =>
    match request.getField "jsonrpc", request.getField "method" with
    | some jsonrpc_version, some method =>
      let request_id := request.getField "id"
      if !versionMatches jsonrpc_version then
        some ⟨[JSONRPCInvalidRequest], [], []⟩
      else
        match lookupDest destinations method with
        | none => none
        | some none =>
          if idTruthy request_id then
            some ⟨[JSONRPCMethodNotFound (request_id.getD .null)], [], []⟩
          else
            some ⟨[], [], []⟩
        | some (some module) =>
          match method with
          | .str m =>
            if pyStartsWith m "builtin" then
              some ⟨[], [], [module]⟩
            else
              some ⟨[], [(module, .arr [.str session_id, request])], []⟩
          | _ => some ⟨[], [], []⟩
    | _, _ => some ⟨[JSONRPCParseError], [], []⟩

/-- Observable effects of one `dispatch_message` invocation. -/
structure DispatchEffects where
  /-- Arguments of `stream.send_string(...)` calls (writes back onto the
  bus stream). -/
  busWrites : List String
  /-- Number of `log.critical(...)` records emitted. -/
  criticalLogs : Nat
  /-- WebSocket deliveries `client.write_message(response)`, as
  (client session id, response) pairs. -/
  wsWrites : List (String × JVal)

/-- `JSONRPCWebSocket.dispatch_message` (lines 61-88).  `clients` is the
session directory (the session ids of the live handlers), `module` the
already-utf-8-decoded first frame, `payload` the `json_decode` result of
the second frame (`none` when decoding raised `ValueError`, the one
exception the method catches).  The subscriptions `json_message[0]` and
`json_message[1]` are OUTSIDE the `try`, so a payload that decodes to
something not indexable at 0 and 1 raises an uncaught exception,
modelled as the result `none`. -/
def dispatch_message (clients : List String) (module : String)
    (payload : Option JVal) : Option DispatchEffects :=
  match payload with
  | none => some ⟨["Cannot decode message!"], 1, []⟩
  | some json_message =>
    match json_message.pyIndex 0 with
    | none => none
    | some sessionIdVal =>
      match json_message.pyIndex 1 with
      | none => none
      | some jsonrpc_response =>
        some ⟨[], 0,
          (clients.filter fun c =>
            match sessionIdVal with
            | .str s => c == s
            | _ => false).map fun c => (c, jsonrpc_response)⟩

/-- `JSONRPCWebSocket.register_destination` (lines 90-105).  The
`assert destination not in cls.destinations` raises `AssertionError`
(modelled as `none`) when the method is already bound, in which case the
dict is left untouched; otherwise the binding is added. -/
def register_destination (destinations : List (String × String))
    (destination module : String) : Option (List (String × String)) :=
  if (destinations.lookup destination).isSome then
    none
  else
    some (destinations ++ [(destination, module)])

/-- `JSONRPCWebSocket.on_close` (lines 157-174).  `self.clients.remove(self)`
raises `KeyError` (result `none`) when the session is not in the directory
(in practice it always is: tornado calls `on_close` once per opened
socket).  Otherwise the session is removed and, when the directory thereby
becomes empty, one bus notification is sent per registered destination
ending in "reset", addressed to that destination's module, with payload
`[self.session_id, JSONRPCNotification(destination)]`.  Returns the new
directory and the bus sends. -/
def on_close (clients : List String) (destinations : List (String × String))
    (session_id : String) : Option (List String × List (String × JVal)) :=
  if session_id ∈ clients then
    let clients' := clients.erase session_id
    if clients'.isEmpty then
      some (clients',
        (destinations.filter fun dm => pyEndsWith dm.1 "reset").map
          fun dm => (dm.2, .arr [.str session_id, JSONRPCNotification dm.1]))
    else
      some (clients', [])
  else
    none

theorem on_message_fields (destinations : List (String × String))
    (session_id : String) (request v mv : JVal)
    (hj : request.getField "jsonrpc" = some v)
    (hm : request.getField "method" = some mv) :
    on_message destinations session_id (some request) =
      if !versionMatches v then
        some ⟨[JSONRPCInvalidRequest], [], []⟩
      else
        match lookupDest destinations mv with
        | none => none
        | some none =>
          if idTruthy (request.getField "id") then
            some ⟨[JSONRPCMethodNotFound ((request.getField "id").getD .null)], [], []⟩
          else some ⟨[], [], []⟩
        | some (some module) =>
          match mv with
          | .str m =>
            if pyStartsWith m "builtin" then some ⟨[], [], [module]⟩
            else some ⟨[], [(module, .arr [.str session_id, request])], []⟩
          | _ => some ⟨[], [], []⟩ := by
  simp only [on_message, hj, hm]

/-- Counterexample to C1: a frame whose `jsonrpc` field equals the string
"2.0" (with `method` present and registered, and an id) IS answered with
InvalidRequest, because line 133 compares the decoded value with the float
class attribute `version = 2.0` and the Python string `"2.0"` is not equal
to the float `2.0`. -/
theorem C1_counterexample :
    on_message [("m", "mod")] "S"
      (some (.obj [("jsonrpc", .str "2.0"), ("method", .str "m"), ("id", .num 7)]))
      = some ⟨[JSONRPCInvalidRequest], [], []⟩ := by
  rfl

/-- C1 (amended): for every inbound frame that decodes to a JSON object
containing `jsonrpc` and `method`, `on_message` accepts the version exactly
when the `jsonrpc` field is a JSON number equal to 2 (the Python comparison
`jsonrpc_version != self.version` against the float class attribute
`version = 2.0`); an accepted request is never answered with
InvalidRequest, and whenever the field fails that numeric comparison — in
particular when it is the string `"2.0"` — exactly one InvalidRequest
(-32600) reply is written to the client and no bus message is emitted. -/
theorem C1_version_gate (destinations : List (String × String))
    (session_id : String) (request v mv : JVal)
    (hj : request.getField "jsonrpc" = some v)
    (hm : request.getField "method" = some mv) :
    (versionMatches v = false →
      on_message destinations session_id (some request)
        = some ⟨[JSONRPCInvalidRequest], [], []⟩) ∧
    (versionMatches v = true →
      ∀ e : GatewayEffects, on_message destinations session_id (some request) = some e →
        JSONRPCInvalidRequest ∉ e.replies) := by
  have h := on_message_fields destinations session_id request v mv hj hm
  refine ⟨fun hv => ?_, fun hv e he => ?_⟩
  · rw [h, hv]; rfl
  · rw [h, hv] at he
    simp only [Bool.not_true, Bool.false_eq_true, if_false] at he
    split at he
    · exact Option.noConfusion he
    · split at he
      · obtain rfl := Option.some.inj he
        simp [JSONRPCInvalidRequest, JSONRPCMethodNotFound]
      · obtain rfl := Option.some.inj he
        simp
    · split at he
      · split at he
        · obtain rfl := Option.some.inj he
          simp
        · obtain rfl := Option.some.inj he
          simp
      · obtain rfl := Option.some.inj he
        simp

/-- Witness for C1_version_gate at a concrete accepted request
(`jsonrpc` the JSON number 2): the effects produced by `on_message`
contain no InvalidRequest reply. -/
theorem C1_version_gate_witness :
    JSONRPCInvalidRequest ∉
      (GatewayEffects.mk []
        [("mod", JVal.arr [.str "S",
          .obj [("jsonrpc", .num 2), ("method", .str "m"), ("id", .num 7)]])]
        []).replies :=
  (C1_version_gate [("m", "mod")] "S"
      (.obj [("jsonrpc", .num 2), ("method", .str "m"), ("id", .num 7)])
      (.num 2) (.str "m") rfl rfl).2 rfl
    ⟨[], [("mod", .arr [.str "S",
      .obj [("jsonrpc", .num 2), ("method", .str "m"), ("id", .num 7)]])], []⟩ rfl

/-- C2: for every decoded, version-accepted request whose method is
registered and does not start with "builtin", `on_message` emits exactly
one two-frame bus message addressed to the bound module with payload the
JSON array `[session id, full original request]`, and writes zero reply
frames to the WebSocket. -/
theorem C2_remote_dispatch (destinations : List (String × String))
    (session_id : String) (request v : JVal) (m module : String)
    (hj : request.getField "jsonrpc" = some v)
    (hv : versionMatches v = true)
    (hm : request.getField "method" = some (.str m))
    (hlk : destinations.lookup m = some module)
    (hb : pyStartsWith m "builtin" = false) :
    on_message destinations session_id (some request)
      = some ⟨[], [(module, .arr [.str session_id, request])], []⟩ := by
  have h := on_message_fields destinations session_id request v (.str m) hj hm
  rw [h, hv]
  simp only [Bool.not_true, Bool.false_eq_true, if_false, lookupDest, hlk, hb]

/-- Witness for C2_remote_dispatch: the spec's happy-path request routed to
the `dynamips` module. -/
theorem C2_remote_dispatch_witness :
    on_message [("frsw.create", "dynamips")] "S"
      (some (.obj [("jsonrpc", .num 2), ("method", .str "frsw.create"), ("id", .num 7)]))
      = some ⟨[], [("dynamips", .arr [.str "S",
          .obj [("jsonrpc", .num 2), ("method", .str "frsw.create"), ("id", .num 7)]])], []⟩ :=
  C2_remote_dispatch [("frsw.create", "dynamips")] "S"
    (.obj [("jsonrpc", .num 2), ("method", .str "frsw.create"), ("id", .num 7)])
    (.num 2) "frsw.create" "dynamips" rfl rfl rfl rfl rfl

/-- Counterexample to C3: the decoded, version-valid request with
`jsonrpc` 2, `method` the empty JSON array and `id` 3 has a method that
is not registered and a truthy id, yet no MethodNotFound reply is written and no
bus message is sent: `method not in self.destinations` on line 136 —
outside the `try`/`except` — raises an uncaught TypeError because a
decoded JSON array is unhashable, so `on_message` propagates the
exception (result `none`). -/
theorem C3_counterexample :
    on_message [] "S"
      (some (.obj [("jsonrpc", .num 2), ("method", .arr []), ("id", .num 3)]))
      = none := by
  rfl

/-- C3 (amended): for every decoded, version-accepted request whose method
value is hashable (a string, null, bool or number — not a JSON array or
object) and not registered, a truthy request id draws exactly one
MethodNotFound reply echoing that id, a missing or falsy id (`0`, `""`,
`null`, absent) draws zero replies; in both cases zero bus messages and
zero builtin calls.  An unregistered method that decodes to a JSON array
or object instead raises an uncaught TypeError at the membership test on
line 136, writing nothing. -/
theorem C3_method_not_found (destinations : List (String × String))
    (session_id : String) (request v mv : JVal)
    (hj : request.getField "jsonrpc" = some v)
    (hv : versionMatches v = true)
    (hm : request.getField "method" = some mv)
    (hlk : lookupDest destinations mv = some none) :
    (∀ idv : JVal, request.getField "id" = some idv → idv.truthy = true →
      on_message destinations session_id (some request)
        = some ⟨[JSONRPCMethodNotFound idv], [], []⟩) ∧
    (idTruthy (request.getField "id") = false →
      on_message destinations session_id (some request) = some ⟨[], [], []⟩) := by
  have h := on_message_fields destinations session_id request v mv hj hm
  rw [hv] at h
  simp only [Bool.not_true, Bool.false_eq_true, if_false, hlk] at h
  refine ⟨fun idv hid hidt => ?_, fun hid => ?_⟩
  · rw [h]
    simp [idTruthy, hid, hidt]
  · rw [h]
    simp [hid]

/-- Witness for C3_method_not_found: the spec's scenario 4, unknown method
"nope" with id 3, answered with MethodNotFound echoing the id. -/
theorem C3_method_not_found_witness :
    on_message [] "S"
      (some (.obj [("jsonrpc", .num 2), ("method", .str "nope"), ("id", .num 3)]))
      = some ⟨[JSONRPCMethodNotFound (.num 3)], [], []⟩ :=
  (C3_method_not_found [] "S"
      (.obj [("jsonrpc", .num 2), ("method", .str "nope"), ("id", .num 3)])
      (.num 2) (.str "nope") rfl rfl rfl rfl).1 (.num 3) rfl rfl

/-- C7: for every inbound frame that is not decodable JSON, or that decodes
to a value without a `jsonrpc` field or without a `method` field,
`on_message` writes exactly one ParseError (-32700) reply with null id and
emits no bus message and no builtin call. -/
theorem C7_parse_error (destinations : List (String × String))
    (session_id : String) (decoded : Option JVal)
    (h : decoded = none ∨ ∃ request, decoded = some request ∧
        (request.getField "jsonrpc" = none ∨ request.getField "method" = none)) :
    on_message destinations session_id decoded = some ⟨[JSONRPCParseError], [], []⟩ ∧
    JSONRPCParseError.getField "id" = some .null ∧
    JSONRPCParseError.getField "error"
      = some (.obj [("code", .num (-32700)), ("message", .str "Parse error")]) := by
  refine ⟨?_, rfl, rfl⟩
  rcases h with rfl | ⟨request, rfl, hf | hf⟩
  · rfl
  · cases hm : request.getField "method" <;> simp [on_message, hf, hm]
  · cases hj : request.getField "jsonrpc" <;> simp [on_message, hf, hj]

/-- Witness for C7_parse_error: undecodable frame text. -/
theorem C7_parse_error_witness :
    on_message [] "S" none = some ⟨[JSONRPCParseError], [], []⟩ :=
  (C7_parse_error [] "S" none (Or.inl rfl)).1

/-- C8: for every decoded, version-accepted request whose method is
registered and starts with the literal prefix "builtin" (including the
method name exactly "builtin"), `on_message` invokes the registered
in-process handler, emits zero bus messages and writes zero replies. -/
theorem C8_builtin_dispatch (destinations : List (String × String))
    (session_id : String) (request v : JVal) (m handler : String)
    (hj : request.getField "jsonrpc" = some v)
    (hv : versionMatches v = true)
    (hm : request.getField "method" = some (.str m))
    (hlk : destinations.lookup m = some handler)
    (hb : pyStartsWith m "builtin" = true) :
    on_message destinations session_id (some request) = some ⟨[], [], [handler]⟩ := by
  have h := on_message_fields destinations session_id request v (.str m) hj hm
  rw [h, hv]
  simp only [Bool.not_true, Bool.false_eq_true, if_false, lookupDest, hlk, hb, if_true]

/-- Witness for C8_builtin_dispatch: a method named exactly "builtin" (the
literal prefix match) dispatched to its in-process handler. -/
theorem C8_builtin_dispatch_witness :
    on_message [("builtin", "h0")] "S"
      (some (.obj [("jsonrpc", .num 2), ("method", .str "builtin")]))
      = some ⟨[], [], ["h0"]⟩ :=
  C8_builtin_dispatch [("builtin", "h0")] "S"
    (.obj [("jsonrpc", .num 2), ("method", .str "builtin")])
    (.num 2) "builtin" "h0" rfl rfl rfl rfl rfl

theorem lookup_append_last {β : Type} (l : List (String × β)) (k : String) (v : β)
    (h : l.lookup k = none) : (l ++ [(k, v)]).lookup k = some v := by
  induction l with
  | nil => simp [List.lookup]
  | cons p t ih =>
    obtain ⟨k0, v0⟩ := p
    rw [List.cons_append]
    cases hk : (k == k0) with
    | true => simp [List.lookup, hk] at h
    | false =>
      simp only [List.lookup, hk] at h ⊢
      exact ih h

theorem filter_beq_eq_replicate_count (sid : String) (l : List String) :
    l.filter (fun c => c == sid) = List.replicate (l.count sid) sid := by
  induction l with
  | nil => simp
  | cons c t ih =>
    by_cases h : c = sid
    · subst h
      simp [List.filter_cons, List.count_cons, ih, List.replicate_succ]
    · simp [List.filter_cons, List.count_cons, h, ih]

/-- C4: when a session in the directory closes, `on_close` removes it and,
exactly when the directory thereby becomes empty, emits one bus
notification per registered destination whose name ends in "reset" — each
addressed to that destination's bound module, with no per-module
deduplication (the emitted list maps one-to-one over the reset-suffixed
registrations, and its length equals their number), each carrying the
just-disconnected session's id in the payload — and it emits nothing when
other sessions remain. -/
theorem C4_reset_broadcast (clients : List String)
    (destinations : List (String × String)) (session_id : String)
    (hmem : session_id ∈ clients) :
    on_close clients destinations session_id =
      some (clients.erase session_id,
        if clients.erase session_id = [] then
          (destinations.filter fun dm => pyEndsWith dm.1 "reset").map
            fun dm => (dm.2, JVal.arr [.str session_id, JSONRPCNotification dm.1])
        else []) ∧
    (if clients.erase session_id = [] then
        (destinations.filter fun dm => pyEndsWith dm.1 "reset").map
          fun dm => (dm.2, JVal.arr [.str session_id, JSONRPCNotification dm.1])
      else []).length
      = (if clients.erase session_id = [] then
          (destinations.filter fun dm => pyEndsWith dm.1 "reset").length
        else 0) := by
  constructor
  · unfold on_close
    rcases h : clients.erase session_id with _ | ⟨c, cs⟩ <;> simp [hmem, h]
  · rcases h : clients.erase session_id with _ | ⟨c, cs⟩ <;> simp [h]

/-- Witness for C4_reset_broadcast: the spec's scenario 6 — registry
`mod.reset → m1`, `mod.other → m1`, `n.reset → m2`, single client "S"
disconnects; exactly two notifications go out, one per reset method, none
for `mod.other`. -/
theorem C4_reset_broadcast_witness :
    on_close ["S"] [("mod.reset", "m1"), ("mod.other", "m1"), ("n.reset", "m2")] "S"
      = some ([],
        [("m1", JVal.arr [.str "S", JSONRPCNotification "mod.reset"]),
         ("m2", JVal.arr [.str "S", JSONRPCNotification "n.reset"])]) :=
  (C4_reset_broadcast ["S"] [("mod.reset", "m1"), ("mod.other", "m1"), ("n.reset", "m2")]
    "S" (by decide)).1

/-- C5: for every well-formed inbound bus frame whose payload decodes to a
two-element array of a session-id string and a response: when exactly one
live session in the directory has that id, exactly one WebSocket write
delivers the response to that session; when no live session has that id,
zero WebSocket writes occur. -/
theorem C5_reply_routing (clients : List String) (module sid : String)
    (response : JVal) :
    (clients.count sid = 1 →
      dispatch_message clients module (some (.arr [.str sid, response]))
        = some ⟨[], 0, [(sid, response)]⟩) ∧
    (clients.count sid = 0 →
      dispatch_message clients module (some (.arr [.str sid, response]))
        = some ⟨[], 0, []⟩) := by
  have hd : dispatch_message clients module (some (.arr [.str sid, response]))
      = some ⟨[], 0, (clients.filter fun c => c == sid).map fun c => (c, response)⟩ := rfl
  refine ⟨fun h1 => ?_, fun h0 => ?_⟩
  · rw [hd, filter_beq_eq_replicate_count, h1]
    rfl
  · rw [hd, filter_beq_eq_replicate_count, h0]
    rfl

/-- Witness for C5_reply_routing: the directory holds exactly the target
session, which receives the module's response. -/
theorem C5_reply_routing_witness :
    dispatch_message ["S"] "dynamips"
      (some (.arr [.str "S", .obj [("jsonrpc", .num 2), ("id", .num 7)]]))
      = some ⟨[], 0, [("S", .obj [("jsonrpc", .num 2), ("id", .num 7)])]⟩ :=
  (C5_reply_routing ["S"] "dynamips" "S"
    (.obj [("jsonrpc", .num 2), ("id", .num 7)])).1 rfl

/-- Counterexample to C6: the payload `[]` is valid JSON but not a
two-element array — a malformed bus frame in the claim's sense — yet
`json_message[0]` on line 81 sits outside the `try`/`except`, so
`dispatch_message` raises an uncaught IndexError (result `none`) instead
of logging critically and discarding the frame. -/
theorem C6_counterexample :
    dispatch_message ["S"] "dynamips" (some (.arr [])) = none := rfl

/-- C6 (amended): for every inbound bus frame whose payload fails JSON
decoding, `dispatch_message` emits one critical log record and discards
the frame without raising and without writing to any WebSocket client
(it also writes one error string back onto the bus stream); a payload
that decodes to JSON that is not subscriptable at positions 0 and 1
instead raises an uncaught exception. -/
theorem C6_decode_failure (clients : List String) (module : String) :
    dispatch_message clients module none
      = some ⟨["Cannot decode message!"], 1, []⟩ := rfl

/-- C9: registering a method not currently bound succeeds and a subsequent
lookup of that method returns exactly the registered module; a second
registration of an already-bound method fails loudly (the `assert` on
line 102 raises AssertionError), leaving the original binding intact. -/
theorem C9_register_then_lookup (destinations : List (String × String))
    (method module : String) :
    (destinations.lookup method = none →
      register_destination destinations method module
        = some (destinations ++ [(method, module)]) ∧
      (destinations ++ [(method, module)]).lookup method = some module) ∧
    (∀ module0, destinations.lookup method = some module0 →
      ∀ module1, register_destination destinations method module1 = none) := by
  refine ⟨fun h => ⟨by simp [register_destination, h], lookup_append_last _ _ _ h⟩,
    fun module0 h module1 => by simp [register_destination, h]⟩

/-- Witness for C9_register_then_lookup: registering "frsw.create" for
module "dynamips" in an empty registry, then looking it up. -/
theorem C9_register_then_lookup_witness :
    register_destination [] "frsw.create" "dynamips"
      = some [("frsw.create", "dynamips")] ∧
    List.lookup "frsw.create" [("frsw.create", "dynamips")] = some "dynamips" :=
  (C9_register_then_lookup [] "frsw.create" "dynamips").1 rfl

/-- C10: the decode-failure branch of `dispatch_message` produces — besides
the critical log — exactly one outbound bus write carrying the literal
text "Cannot decode message!" (line 77, an effect the spec does not
mention) and zero WebSocket writes. -/
theorem C10_bus_error_write (clients : List String) (module : String) :
    ∃ e : DispatchEffects,
      dispatch_message clients module none = some e ∧
      e.busWrites = ["Cannot decode message!"] ∧ e.wsWrites = [] :=
  ⟨⟨["Cannot decode message!"], 1, []⟩, rfl, rfl, rfl⟩
